import Mathlib

/-!
Verification of the synthetic-data generation and validation core of the
DataFlow Intelligence Platform (`src/utils/data_handler.py` and
`src/utils/csv_validator.py`).

Embedding conventions:
* NumPy's global pseudo-random generator is modelled as an abstract state
  machine `RNG σ`: `np.random.seed` becomes `RNG.seed`, and each draw
  (`randint`, `uniform`, weighted `choice`) threads the state explicitly.
  Properties of the concrete Mersenne-Twister draws that a claim needs
  (e.g. `randint(lo, hi)` lands in `[lo, hi)`) are taken as hypotheses on
  the abstract machine, which any real generator satisfies.
* Python floats are embedded as exact rationals (`ℚ`); `int(x)` on a
  non-negative float is `Int.floor`, and `round(x, 3)` is rounding to the
  nearest multiple of 1/1000.
* `math.sqrt`/`np.sqrt` is an abstract parameter `sqrtA : ℚ → ℚ`, since the
  claims about the flight generator do not depend on its value.
* Python's process-salted `hash` on strings is an abstract parameter
  `hashS : String → ℤ`, fixed within a process.
* `pandas.DataFrame` values are embedded as lists of rows.
-/

/-- Abstract pseudo-random number generator with explicit state, standing in
for NumPy's global generator.  `seed n` produces the state that
`np.random.seed(n)` installs; the draw operations return a value and the next
state. -/
structure RNG (σ : Type) where
  seed : ℤ → σ
  randint : ℤ → ℤ → σ → ℤ × σ
  uniform : ℚ → ℚ → σ → ℚ × σ
  choiceW : List String → List ℚ → σ → String × σ

/-- State-passing map: runs `f` on each element left to right, threading the
RNG state, and collects one output per element (a `for` loop appending one
row per iteration). -/
def stateMap (f : α → σ → β × σ) : List α → σ → List β × σ
  | [], s => ([], s)
  | a :: l, s =>
    let (b, s1) := f a s
    let (bs, s2) := stateMap f l s1
    (b :: bs, s2)

/-- State-passing bind: like `stateMap` but each element yields a list of
outputs, concatenated in order (nested `for` loops appending rows). -/
def stateBind (f : α → σ → List β × σ) : List α → σ → List β × σ
  | [], s => ([], s)
  | a :: l, s =>
    let (bs, s1) := f a s
    let (bs', s2) := stateBind f l s1
    (bs ++ bs', s2)

theorem stateMap_forall {f : α → σ → β × σ} {P : β → Prop} {l : List α}
    (h : ∀ a ∈ l, ∀ s, P (f a s).1) : ∀ s, ((stateMap f l s).1).Forall P := by
  induction l with
  | nil => intro s; simp [stateMap]
  | cons a l ih =>
    intro s
    simp only [stateMap, List.forall_cons]
    exact ⟨h a (by simp) s, ih (fun a ha s => h a (by simp [ha]) s) _⟩

theorem stateMap_length {f : α → σ → β × σ} (l : List α) (s : σ) :
    ((stateMap f l s).1).length = l.length := by
  induction l generalizing s with
  | nil => simp [stateMap]
  | cons a l ih => simp [stateMap, ih]

theorem stateBind_forall {f : α → σ → List β × σ} {P : β → Prop} {l : List α}
    (h : ∀ a ∈ l, ∀ s, ((f a s).1).Forall P) :
    ∀ s, ((stateBind f l s).1).Forall P := by
  induction l with
  | nil => intro s; simp [stateBind]
  | cons a l ih =>
    intro s
    simp only [stateBind]
    rw [List.forall_iff_forall_mem] at *
    intro x hx
    rcases List.mem_append.mp hx with hx | hx
    · exact (List.forall_iff_forall_mem.mp (h a (by simp) _)) x hx
    · exact (List.forall_iff_forall_mem.mp
        (ih (fun a ha s => h a (by simp [ha]) s) _)) x hx

theorem stateBind_ne_nil {f : α → σ → List β × σ} {l : List α}
    (hl : l ≠ []) (h : ∀ a ∈ l, ∀ s, (f a s).1 ≠ []) :
    ∀ s, (stateBind f l s).1 ≠ [] := by
  cases l with
  | nil => exact absurd rfl hl
  | cons a l =>
    intro s
    simp only [stateBind]
    intro hcontra
    rcases List.append_eq_nil.mp hcontra with ⟨h1, _⟩
    exact h a (by simp) s h1

/-- Embedding of Python's `round(x, 3)`: round to the nearest multiple of
1/1000 (Python rounds halves to even on binary floats; the claims only use
that the result stays within the clamped interval, which holds either way). -/
def round3 (x : ℚ) : ℚ := (⌊x * 1000 + 1/2⌋ : ℚ) / 1000

theorem round3_nonneg {x : ℚ} (hx : 0 ≤ x) : 0 ≤ round3 x := by
  unfold round3
  have h1 : (0 : ℤ) ≤ ⌊x * 1000 + 1/2⌋ := by
    apply Int.floor_nonneg.mpr
    nlinarith
  positivity

theorem round3_le_ten {x : ℚ} (hx : x ≤ 8) : round3 x ≤ 10 := by
  unfold round3
  have h1 : ⌊x * 1000 + 1/2⌋ ≤ ⌊(8001 : ℚ)⌋ := by
    apply Int.floor_le_floor
    nlinarith
  have h2 : (⌊(8001 : ℚ)⌋ : ℤ) = 8001 := by norm_num
  rw [h2] at h1
  have : (⌊x * 1000 + 1/2⌋ : ℚ) ≤ 8001 := by exact_mod_cast h1
  linarith

/-! ## Happiness generator (`DataHandler._generate_synthetic_happiness_data`) -/

/-- One row of the synthetic happiness table. -/
structure HRow where
  RANK : ℤ
  Country : String
  Happiness_score : ℚ
  GDP_per_capita : ℚ
  Social_support : ℚ
  Healthy_life_expectancy : ℚ
  Freedom : ℚ
  Generosity : ℚ
  Corruption : ℚ
  Region : String
deriving DecidableEq

/-- `countries_by_region` dictionary, in insertion (= iteration) order. -/
def countries_by_region : List (String × List String) :=
  [("Europe", ["Finland", "Denmark", "Iceland", "Switzerland", "Netherlands",
               "Luxembourg", "Sweden", "Norway", "Austria", "Ireland",
               "Germany", "Czechia", "Belgium", "Slovenia", "United Kingdom",
               "France", "Estonia", "Spain", "Italy"]),
   ("North America", ["Canada", "United States"]),
   ("Latin America", ["Costa Rica", "Uruguay", "Brazil", "Chile", "Mexico",
                      "Argentina", "Panama", "Colombia"]),
   ("Asia & Pacific", ["New Zealand", "Australia", "Israel", "Singapore",
                       "Japan", "South Korea", "Thailand", "Malaysia",
                       "China", "Vietnam", "Indonesia"]),
   ("Middle East", ["United Arab Emirates", "Saudi Arabia", "Bahrain",
                    "Kuwait", "Jordan", "Lebanon"]),
   ("Africa", ["Mauritius", "South Africa", "Morocco", "Ghana", "Kenya",
               "Nigeria", "Ethiopia", "Rwanda", "Zimbabwe"]),
   ("Former Soviet States", ["Kazakhstan", "Russia", "Belarus", "Ukraine"])]

/-- `region_base_happiness` dictionary lookup. -/
def region_base_happiness (region : String) : ℚ :=
  if region = "Europe" then 7.0
  else if region = "North America" then 6.8
  else if region = "Latin America" then 6.2
  else if region = "Asia & Pacific" then 5.8
  else if region = "Middle East" then 5.5
  else if region = "Africa" then 4.5
  else 5.0

/-- `region_base_gdp` dictionary lookup. -/
def region_base_gdp (region : String) : ℚ :=
  if region = "Europe" then 1.6
  else if region = "North America" then 1.7
  else if region = "Latin America" then 1.0
  else if region = "Asia & Pacific" then 1.3
  else if region = "Middle East" then 1.4
  else if region = "Africa" then 0.7
  else 1.1

/-- The flattened (region, country) iteration of the two nested `for` loops. -/
def happinessPairs : List (String × String) :=
  countries_by_region.bind (fun rc => rc.2.map (fun c => (rc.1, c)))

/-- Builds the pre-sort row list: one row per (region, country) pair, with
the running `rank` counter and the RNG state threaded through.  Draw order
matches the source: happiness noise, gdp noise, then the five remaining
uniform draws in dict-literal order. -/
def genHappinessRows (R : RNG σ) : List (String × String) → ℤ → σ → List HRow × σ
  | [], _, s => ([], s)
  | (region, country) :: rest, rank, s =>
    let base_happiness := region_base_happiness region
    let base_gdp := region_base_gdp region
    let (dh, s1) := R.uniform (-0.8) 0.8 s
    let (dg, s2) := R.uniform (-0.3) 0.3 s1
    let happiness := max 2.0 (min 8.0 (base_happiness + dh))
    let gdp := max 0.3 (min 2.0 (base_gdp + dg))
    let (so, s3) := R.uniform 0.5 1.5 s2
    let (he, s4) := R.uniform 0.5 1.5 s3
    let (fr, s5) := R.uniform 0.3 1.2 s4
    let (ge, s6) := R.uniform (-0.2) 0.5 s5
    let (co, s7) := R.uniform 0 0.5 s6
    let row : HRow :=
      ⟨rank, country, round3 happiness, round3 gdp, round3 so, round3 he,
       round3 fr, round3 ge, round3 co, region⟩
    let (rows, s8) := genHappinessRows R rest (rank + 1) s7
    (row :: rows, s8)

/-- Ordering used by `df.sort_values('Happiness_score', ascending=False)`:
row `a` may precede row `b` when `a`'s score is at least `b`'s. -/
def scoreGE (a b : HRow) : Prop := b.Happiness_score ≤ a.Happiness_score

instance : DecidableRel scoreGE := fun a b => inferInstanceAs (Decidable (_ ≤ _))

instance : IsTotal HRow scoreGE :=
  ⟨fun a b => le_total b.Happiness_score a.Happiness_score⟩

instance : IsTrans HRow scoreGE :=
  ⟨fun _ _ _ h1 h2 => le_trans h2 h1⟩

/-- `df['RANK'] = range(1, len(df) + 1)`: re-issue ranks positionally. -/
def assignRanks (n : ℤ) : List HRow → List HRow
  | [] => []
  | r :: rs => { r with RANK := n } :: assignRanks (n + 1) rs

/-- `DataHandler._generate_synthetic_happiness_data`: seed 42, build rows,
sort by happiness score descending, re-issue ranks 1..N. -/
def generate_synthetic_happiness_data (R : RNG σ) (s0 : σ) : List HRow × σ :=
  let s := R.seed 42
  let out := genHappinessRows R happinessPairs 1 s
  (assignRanks 1 (List.insertionSort scoreGE out.1), out.2)

/-! ## University generator (`DataHandler._generate_synthetic_university_data`) -/

/-- One row of the synthetic university table.  Field names with spaces or
punctuation in the source are rendered as Lean identifiers:
`Retention Rate (%)` is `Retention_Rate_pct`, `Student Satisfaction (%)` is
`Student_Satisfaction_pct`, and the four `<Dept> Enrolled` columns are
`<Dept>_Enrolled`. -/
structure URow where
  Year : ℤ
  Term : String
  Applications : ℤ
  Admitted : ℤ
  Enrolled : ℤ
  Retention_Rate_pct : ℚ
  Student_Satisfaction_pct : ℚ
  Engineering_Enrolled : ℤ
  Business_Enrolled : ℤ
  Arts_Enrolled : ℤ
  Science_Enrolled : ℤ
deriving DecidableEq

/-- The body of the nested `for year / for term` loops: baselines from the
year offset, the Fall multiplier, then nine `np.random.randint` draws in
dict-literal order. -/
def univTermRow (R : RNG σ) (year : ℤ) (term : String) (s : σ) : URow × σ :=
  let base_apps : ℤ := 2500 + (year - 2015) * 120
  let base_retention : ℚ := 85 + min (((year : ℚ) - 2015) * 0.8) 8
  let base_satisfaction : ℚ := 78 + min (((year : ℚ) - 2015) * 1.2) 12
  let base_apps : ℤ := if term = "Fall" then ⌊(base_apps : ℚ) * 1.3⌋ else base_apps
  let (n1, s1) := R.randint (-100) 100 s
  let (n2, s2) := R.randint (-50) 50 s1
  let (n3, s3) := R.randint (-30) 30 s2
  let (n4, s4) := R.randint (-3) 3 s3
  let (n5, s5) := R.randint (-4) 4 s4
  let (n6, s6) := R.randint (-8) 8 s5
  let (n7, s7) := R.randint (-6) 6 s6
  let (n8, s8) := R.randint (-5) 5 s7
  let (n9, s9) := R.randint (-4) 4 s8
  ({ Year := year
     Term := term
     Applications := base_apps + n1
     Admitted := ⌊(base_apps : ℚ) * 0.65⌋ + n2
     Enrolled := ⌊(base_apps : ℚ) * 0.28⌋ + n3
     Retention_Rate_pct := max 75 (base_retention + n4)
     Student_Satisfaction_pct := max 70 (base_satisfaction + n5)
     Engineering_Enrolled := ⌊(base_apps : ℚ) * 0.28 * 0.35⌋ + n6
     Business_Enrolled := ⌊(base_apps : ℚ) * 0.28 * 0.28⌋ + n7
     Arts_Enrolled := ⌊(base_apps : ℚ) * 0.28 * 0.22⌋ + n8
     Science_Enrolled := ⌊(base_apps : ℚ) * 0.28 * 0.15⌋ + n9 }, s9)

/-- `range(2015, 2025)` crossed with `["Spring", "Fall"]`, flattened in loop
order. -/
def univPairs : List (ℤ × String) :=
  ((List.range 10).map (fun k => (2015 : ℤ) + k)).bind
    (fun y => [(y, "Spring"), (y, "Fall")])

/-- `DataHandler._generate_synthetic_university_data`: seed 42, then one row
per (year, term) pair. -/
def generate_synthetic_university_data (R : RNG σ) (s0 : σ) : List URow × σ :=
  let s := R.seed 42
  stateMap (fun (p : ℤ × String) s => univTermRow R p.1 p.2 s) univPairs s

/-! ## Flight generator (`DataHandler._generate_airport_data`) -/

/-- One row of the synthetic flight table. -/
structure Flight where
  source_airport : String
  destination_airport : String
  destination_name : String
  destination_lat : ℚ
  destination_lon : ℚ
  airline : String
  flight_hour : ℤ
  domestic : Bool
  region : String
  distance : ℚ
deriving DecidableEq

/-- One entry of the `destinations` dictionary. -/
structure Dest where
  code : String
  name : String
  lat : ℚ
  lon : ℚ
  domestic : Bool
  region : String

/-- The `destinations` dictionary, in insertion (= iteration) order. -/
def destinations : List Dest :=
  [⟨"LAX", "Los Angeles International", 33.9416, -118.4085, true, "West Coast"⟩,
   ⟨"ORD", "Chicago O\x27Hare International", 41.9786, -87.9048, true, "Midwest"⟩,
   ⟨"DFW", "Dallas/Fort Worth International", 32.8968, -97.0380, true, "South"⟩,
   ⟨"DEN", "Denver International", 39.8561, -104.6737, true, "Mountain"⟩,
   ⟨"SFO", "San Francisco International", 37.6213, -122.3790, true, "West Coast"⟩,
   ⟨"SEA", "Seattle-Tacoma International", 47.4502, -122.3088, true, "Northwest"⟩,
   ⟨"MCO", "Orlando International", 28.4312, -81.3081, true, "Southeast"⟩,
   ⟨"LHR", "London Heathrow", 51.4700, -0.4543, false, "Europe"⟩,
   ⟨"CDG", "Paris Charles de Gaulle", 49.0097, 2.5479, false, "Europe"⟩,
   ⟨"FRA", "Frankfurt Airport", 50.0379, 8.5622, false, "Europe"⟩,
   ⟨"NRT", "Tokyo Narita International", 35.7647, 140.3864, false, "Asia"⟩,
   ⟨"HKG", "Hong Kong International", 22.3080, 113.9185, false, "Asia"⟩,
   ⟨"SYD", "Sydney Airport", -33.9399, 151.1753, false, "Oceania"⟩,
   ⟨"GRU", "SÃ£o Paulo/Guarulhos International", -23.4356, -46.4731, false, "South America"⟩]

/-- One entry of the `airport_coordinates` dictionary of supported hubs. -/
structure Hub where
  code : String
  lat : ℚ
  lon : ℚ
  name : String

/-- The `airport_coordinates` dictionary. -/
def airport_coordinates : List Hub :=
  [⟨"JFK", 40.6413, -73.7781, "John F. Kennedy International"⟩,
   ⟨"ATL", 33.6407, -84.4277, "Hartsfield-Jackson Atlanta International"⟩,
   ⟨"MIA", 25.7932, -80.2906, "Miami International"⟩,
   ⟨"BOS", 42.3656, -71.0096, "Boston Logan International"⟩,
   ⟨"PHL", 39.8729, -75.2437, "Philadelphia International"⟩]

/-- The `airlines` list. -/
def airlines : List String :=
  ["American Airlines", "Delta Air Lines", "United Airlines",
   "Southwest Airlines", "JetBlue Airways", "British Airways",
   "Lufthansa", "Air France", "Emirates", "Qatar Airways"]

/-- One iteration of the inner `for _ in range(num_flights)` loop: draw the
airline from the domestic or international weighted distribution, then the
flight hour via `np.random.randint(5, 23)`. -/
def drawFlight (R : RNG σ) (code : String) (d : Dest) (distance : ℚ)
    (s : σ) : Flight × σ :=
  let (airline, s1) :=
    if d.domestic then
      R.choiceW (airlines.take 5) [0.3, 0.25, 0.2, 0.15, 0.1] s
    else
      R.choiceW airlines [0.15, 0.15, 0.15, 0.05, 0.05, 0.1, 0.1, 0.1, 0.08, 0.07] s
  let (hour, s2) := R.randint 5 23 s1
  ({ source_airport := code
     destination_airport := d.code
     destination_name := d.name
     destination_lat := d.lat
     destination_lon := d.lon
     airline := airline
     flight_hour := hour
     domestic := d.domestic
     region := d.region
     distance := distance * 69 }, s2)

/-- The per-destination body of the outer loop: distance via the abstract
square root, flight count derived from it and clamped to `[2, 25]`, then
`num_flights` flights. -/
def destFlights (R : RNG σ) (sqrtA : ℚ → ℚ) (code : String) (src : Hub)
    (d : Dest) (s : σ) : List Flight × σ :=
  let distance := sqrtA ((src.lat - d.lat) ^ 2 + (src.lon - d.lon) ^ 2)
  let base_flights : ℚ := if d.domestic then 15 else 8
  let distance_factor : ℚ := max 0.3 (1 / (distance * 0.01 + 0.5))
  let num_flights : ℤ := ⌊base_flights * distance_factor⌋
  let num_flights : ℤ := max 2 (min 25 num_flights)
  stateMap (fun _ s => drawFlight R code d distance s)
    (List.range num_flights.toNat) s

/-- `DataHandler._generate_airport_data`: seed from the (process-fixed) hash
of the airport code, return an empty table for non-hub codes, otherwise
generate flights per destination. -/
def generate_airport_data (R : RNG σ) (sqrtA : ℚ → ℚ) (hashS : String → ℤ)
    (airport_code : String) (s0 : σ) : List Flight × σ :=
  let s := R.seed (hashS airport_code % 1000)
  match airport_coordinates.find? (fun h => h.code = airport_code) with
  | none => ([], s)
  | some src => stateBind (destFlights R sqrtA airport_code src) destinations s

/-! ## Structural validator (`CSVValidator.validate_csv_structure`) -/

/-- The exceptions `pd.read_csv` can raise, as caught by the source's
`except` clauses: `pd.errors.EmptyDataError`, `pd.errors.ParserError`, and
any other exception. -/
inductive ReadErr where
  | emptyData : ReadErr
  | parserError : String → ReadErr
  | other : String → ReadErr

/-- Abstract file system / CSV reader: `existsF` is `Path.exists()`,
`sizeF` is `stat().st_size`, and `readHead p` is `pd.read_csv(p, nrows=5)`
returning either the parsed preview (its column names and row count) or the
exception it raised. -/
structure FileSys where
  existsF : String → Bool
  sizeF : String → ℕ
  readHead : String → Except ReadErr (List String × ℕ)

/-- `CSVValidator.validate_csv_structure`: every failure is converted into a
`(False, message)` pair; nothing propagates. -/
def validate_csv_structure (fs : FileSys) (file_path : String)
    (expected_columns : List String) : Bool × String :=
  if fs.existsF file_path = false then
    (false, "File not found: " ++ file_path)
  else if fs.sizeF file_path = 0 then
    (false, "File is empty")
  else
    match fs.readHead file_path with
    | .error .emptyData => (false, "CSV file is empty or corrupted")
    | .error (.parserError e) => (false, "CSV parsing error: " ++ e)
    | .error (.other e) => (false, "Unexpected error: " ++ e)
    | .ok (cols, nrows) =>
      if nrows = 0 then (false, "CSV file contains no data")
      else if expected_columns ≠ [] ∧
          expected_columns.filter (fun c => ¬ c ∈ cols) ≠ [] then
        (false, "Missing required columns: " ++
          toString (expected_columns.filter (fun c => ¬ c ∈ cols)))
      else (true, "File structure is valid")

/-! ## DataFrame model for cleaning and integrity checking -/

/-- A cell of a DataFrame: missing (`NaN`), a string, or a number. -/
inductive Cell where
  | na : Cell
  | str : String → Cell
  | num : ℚ → Cell
deriving DecidableEq

/-- A pandas column dtype, as far as the source inspects it
(`dtype == 'object'` or not). -/
inductive Dtype where
  | object : Dtype
  | numeric : Dtype
deriving DecidableEq

/-- A DataFrame: named, dtyped columns and rows of cells aligned with the
columns by position. -/
structure DF where
  cols : List (String × Dtype)
  rows : List (List Cell)
deriving DecidableEq

/-- Cell of row `r` in column position `i` (pandas rows always have every
column; out-of-range reads as missing). -/
def cellAt (r : List Cell) (i : ℕ) : Cell := r.getD i Cell.na

/-- `placeholder_values = ['xx', 'XX', 'N/A', 'n/a', 'NULL', 'null', '']`. -/
def placeholder_values : List String :=
  ["xx", "XX", "N/A", "n/a", "NULL", "null", ""]

/-- `df[col].isin(placeholder_values)` for one cell: true only for a string
cell whose value is a placeholder (`NaN` is not in the list). -/
def isPlaceholder (c : Cell) : Bool :=
  match c with
  | .str v => v ∈ placeholder_values
  | _ => false

/-- `df.dropna(how='all')`: keep rows with at least one non-missing cell. -/
def dropnaAll (rows : List (List Cell)) : List (List Cell) :=
  rows.filter (fun r => ¬ r.all (fun c => c = Cell.na))

/-- One iteration of the placeholder-removal loop: if column `i` has object
dtype, drop the rows whose cell there is a placeholder. -/
def placeholderStep (cols : List (String × Dtype)) (rows : List (List Cell))
    (i : ℕ) : List (List Cell) :=
  if (cols.getD i ("", Dtype.numeric)).2 = Dtype.object then
    rows.filter (fun r => ¬ isPlaceholder (cellAt r i))
  else rows

/-- The placeholder-removal loop: for each column of object dtype, filter
out the rows whose cell there is a placeholder (sequentially, as in the
source's repeated reassignment of `df_cleaned`). -/
def removePlaceholders (cols : List (String × Dtype)) (rows : List (List Cell)) :
    List (List Cell) :=
  (List.range cols.length).foldl (placeholderStep cols) rows

/-- `astype(str)` on one cell (NaN prints as `nan`). -/
def cellToStr (c : Cell) : String :=
  match c with
  | .na => "nan"
  | .str v => v
  | .num q => toString q

/-- `pd.to_numeric(..., errors='coerce')` applied after the comma-to-dot
substitution, with the numeric parser abstracted as `parseNum`. -/
def coerceCell (parseNum : String → Option ℚ) (c : Cell) : Cell :=
  match parseNum ((cellToStr c).replace "," ".") with
  | some q => .num q
  | none => .na

/-- The numeric-conversion loop: for each requested column present in the
frame, if its dtype is object, replace commas, parse each cell numerically
(unparseable becomes missing) and mark the column numeric; an
already-numeric column passes through `pd.to_numeric` unchanged. -/
def convertStep (parseNum : String → Option ℚ) (acc : DF) (col : String) : DF :=
  match acc.cols.findIdx? (fun cd => cd.1 = col) with
  | none => acc
  | some i =>
    if (acc.cols.getD i ("", Dtype.numeric)).2 = Dtype.object then
      { cols := acc.cols.set i (col, Dtype.numeric)
        rows := acc.rows.map (fun r =>
          r.set i (coerceCell parseNum (cellAt r i))) }
    else acc

def convertNumericCols (parseNum : String → Option ℚ)
    (numeric_columns : List String) (df : DF) : DF :=
  numeric_columns.foldl (convertStep parseNum) df

/-- `CSVValidator.clean_csv_data`: drop fully-empty rows, filter placeholder
rows column by column, then coerce the designated numeric columns. -/
def clean_csv_data (parseNum : String → Option ℚ) (df : DF)
    (numeric_columns : List String) : DF :=
  let rows1 := dropnaAll df.rows
  let rows2 := removePlaceholders df.cols rows1
  convertNumericCols parseNum numeric_columns { cols := df.cols, rows := rows2 }

/-! ## Integrity checkers (`DataIntegrityChecker`) -/

/-- `col in df.columns`. -/
def hasCol (df : DF) (name : String) : Bool := df.cols.any (fun cd => cd.1 = name)

/-- Cell of a row in the named column. -/
def getCell (df : DF) (r : List Cell) (name : String) : Cell :=
  match df.cols.findIdx? (fun cd => cd.1 = name) with
  | some i => cellAt r i
  | none => Cell.na

/-- Element-wise `df[col] < q`: false on a missing cell (NaN comparisons are
false in pandas; the checkers are only applied to well-typed cleaned data,
so string cells — which would raise in pandas — are also modelled false). -/
def cellLtQ (c : Cell) (q : ℚ) : Bool :=
  match c with
  | .num v => v < q
  | _ => false

/-- Element-wise `df[col] > q`. -/
def cellGtQ (c : Cell) (q : ℚ) : Bool :=
  match c with
  | .num v => v > q
  | _ => false

/-- Element-wise `df[a] > df[b]` between two cells of a row. -/
def cellGtCell (a b : Cell) : Bool :=
  match a, b with
  | .num x, .num y => x > y
  | _, _ => false

/-- `len(df[pred])`: how many rows satisfy the element-wise predicate. -/
def countRows (df : DF) (p : List Cell → Bool) : ℕ :=
  (df.rows.filter p).length

/-- The happiness-score range block of `validate_happiness_data`. -/
def happinessScoreIssues (df : DF) : List String :=
  if hasCol df "Happiness_score" then
    let n := countRows df (fun r =>
      cellLtQ (getCell df r "Happiness_score") 0 ||
      cellGtQ (getCell df r "Happiness_score") 10)
    if n ≠ 0 then
      ["Found " ++ toString n ++ " rows with invalid happiness scores (should be 0-10)"]
    else []
  else []

/-- The GDP block of `validate_happiness_data`. -/
def gdpIssues (df : DF) : List String :=
  if hasCol df "GDP_per_capita" then
    let n := countRows df (fun r => cellLtQ (getCell df r "GDP_per_capita") 0)
    if n ≠ 0 then ["Found " ++ toString n ++ " rows with negative GDP values"]
    else []
  else []

/-- The country-name block of `validate_happiness_data`
(`isnull() | (== '')`). -/
def countryIssues (df : DF) : List String :=
  if hasCol df "Country" then
    let n := countRows df (fun r =>
      match getCell df r "Country" with
      | .na => true
      | .str v => v = ""
      | .num _ => false)
    if n ≠ 0 then ["Found " ++ toString n ++ " rows with missing country names"]
    else []
  else []

/-- `DataIntegrityChecker.validate_happiness_data`: the three independent
blocks, appended in order. -/
def validate_happiness_data (df : DF) : List String :=
  happinessScoreIssues df ++ gdpIssues df ++ countryIssues df

/-- The year-range block of `validate_university_data`; `current_year` is
`pd.Timestamp.now().year`, passed explicitly. -/
def yearIssues (current_year : ℤ) (df : DF) : List String :=
  if hasCol df "Year" then
    let n := countRows df (fun r =>
      cellLtQ (getCell df r "Year") 2000 ||
      cellGtQ (getCell df r "Year") ((current_year : ℚ) + 1))
    if n ≠ 0 then ["Found " ++ toString n ++ " rows with invalid years"]
    else []
  else []

/-- `enrollment_cols = ['Applications', 'Admitted', 'Enrolled']`. -/
def enrollment_cols : List String := ["Applications", "Admitted", "Enrolled"]

/-- The negative-count block for one enrollment column. -/
def negIssuesFor (df : DF) (col : String) : List String :=
  if hasCol df col then
    let n := countRows df (fun r => cellLtQ (getCell df r col) 0)
    if n ≠ 0 then ["Found " ++ toString n ++ " rows with negative " ++ col]
    else []
  else []

/-- The logical-consistency block: runs only when all three enrollment
columns are present. -/
def logicIssues (df : DF) : List String :=
  if enrollment_cols.all (fun c => hasCol df c) then
    let n := countRows df (fun r =>
      cellGtCell (getCell df r "Enrolled") (getCell df r "Admitted") ||
      cellGtCell (getCell df r "Admitted") (getCell df r "Applications"))
    if n ≠ 0 then
      ["Found " ++ toString n ++ " rows with illogical enrollment progression"]
    else []
  else []

/-- `percentage_cols = ['Retention Rate (%)', 'Student Satisfaction (%)']`. -/
def percentage_cols : List String :=
  ["Retention Rate (%)", "Student Satisfaction (%)"]

/-- The percentage-range block for one percentage column. -/
def pctIssuesFor (df : DF) (col : String) : List String :=
  if hasCol df col then
    let n := countRows df (fun r =>
      cellLtQ (getCell df r col) 0 || cellGtQ (getCell df r col) 100)
    if n ≠ 0 then
      ["Found " ++ toString n ++ " rows with invalid " ++ col ++ " (should be 0-100)"]
    else []
  else []

/-- `DataIntegrityChecker.validate_university_data`: the independent blocks,
appended in source order with no short-circuiting. -/
def validate_university_data (current_year : ℤ) (df : DF) : List String :=
  yearIssues current_year df ++
  (enrollment_cols.bind (fun c => negIssuesFor df c)) ++
  logicIssues df ++
  (percentage_cols.bind (fun c => pctIssuesFor df c))

/-! ## Concrete instances used by witnesses -/

/-- A trivial concrete RNG (state `Unit`): `randint lo hi` returns `lo`,
`uniform a b` returns `a`, weighted choice returns the first option. -/
def RNG0 : RNG Unit where
  seed _ := ()
  randint lo _ _ := (lo, ())
  uniform a _ _ := (a, ())
  choiceW l _ _ := (l.headD "", ())

/-- `np.random.randint(lo, hi)` draws land in `[lo, hi)`; every real NumPy
generator satisfies this. -/
def RandintInRange {σ : Type} (R : RNG σ) : Prop :=
  ∀ lo hi s, lo < hi → lo ≤ (R.randint lo hi s).1 ∧ (R.randint lo hi s).1 < hi

theorem RNG0_randint_range : RandintInRange RNG0 :=
  fun lo _ _ h => ⟨le_refl lo, h⟩

/-! ## Claim theorems -/

/-- Claim C2: each generator is deterministic within a process: the
generated table does not depend on the incoming global RNG state, because
each generator starts by re-seeding (`np.random.seed(42)`, or the hash of
the airport code), so two calls with the same parameters produce identical
tables. -/
theorem generators_deterministic {σ : Type} (R : RNG σ) (sqrtA : ℚ → ℚ)
    (hashS : String → ℤ) (code : String) (s₁ s₂ : σ) :
    (generate_airport_data R sqrtA hashS code s₁).1 =
      (generate_airport_data R sqrtA hashS code s₂).1 ∧
    (generate_synthetic_university_data R s₁).1 =
      (generate_synthetic_university_data R s₂).1 ∧
    (generate_synthetic_happiness_data R s₁).1 =
      (generate_synthetic_happiness_data R s₂).1 :=
  ⟨rfl, rfl, rfl⟩

/-- Claim C4: for any airport code outside the hub set
{JFK, ATL, MIA, BOS, PHL} the flight generator returns the empty table (and,
being a total function, raises nothing). -/
theorem unknown_airport_code_empty {σ : Type} (R : RNG σ) (sqrtA : ℚ → ℚ)
    (hashS : String → ℤ) (code : String) (s : σ)
    (h : code ∉ ["JFK", "ATL", "MIA", "BOS", "PHL"]) :
    (generate_airport_data R sqrtA hashS code s).1 = [] := by
  have hnone : airport_coordinates.find? (fun hb => hb.code = code) = none := by
    rw [List.find?_eq_none]
    intro hb hmem
    simp only [List.mem_cons, List.mem_singleton, not_or] at h
    simp only [airport_coordinates, List.mem_cons, List.not_mem_nil, or_false] at hmem
    rcases hmem with rfl | rfl | rfl | rfl | rfl <;>
      · simp only [decide_eq_false_iff_not]
        intro heq
        simp_all
  simp [generate_airport_data, hnone]

theorem unknown_airport_code_empty_witness :
    (generate_airport_data RNG0 (fun _ => 0) (fun _ => 0) "LAX" ()).1 = [] :=
  unknown_airport_code_empty RNG0 (fun _ => 0) (fun _ => 0) "LAX" () (by decide)

/-- Claim C6 — concrete file systems used by the witness. -/
def fsMissing : FileSys :=
  ⟨fun _ => false, fun _ => 0, fun _ => .error .emptyData⟩

def fsBoom : FileSys :=
  ⟨fun _ => true, fun _ => 7, fun _ => .error (.other "boom")⟩

/-- Claim C6: the structural validator never raises: a nonexistent path
yields `(False, "File not found: <path>")`, and any exception from reading
or parsing is converted into a `(False, message)` result. -/
theorem validator_soft_failure (fs : FileSys) (p : String) (cols : List String) :
    (fs.existsF p = false →
      validate_csv_structure fs p cols = (false, "File not found: " ++ p)) ∧
    (∀ e, fs.readHead p = .error e →
      (validate_csv_structure fs p cols).1 = false) := by
  constructor
  · intro h
    simp [validate_csv_structure, h]
  · intro e he
    unfold validate_csv_structure
    by_cases h1 : fs.existsF p = false
    · simp [h1]
    · by_cases h2 : fs.sizeF p = 0
      · simp [h1, h2]
      · simp only [h1, h2, if_false, if_true, he]
        cases e <;> simp

theorem validator_soft_failure_witness :
    validate_csv_structure fsMissing "data/raw/2022.csv" [] =
      (false, "File not found: data/raw/2022.csv") ∧
    (validate_csv_structure fsBoom "data/raw/2022.csv" []).1 = false := by
  constructor
  · have h := (validator_soft_failure fsMissing "data/raw/2022.csv" []).1 rfl
    simpa using h
  · exact (validator_soft_failure fsBoom "data/raw/2022.csv" []).2 (.other "boom") rfl

/-- Core arithmetic of the enrollment invariant: for any base application
count of at least 426 and noise draws within the `randint` bounds used by
the generator, the three derived counts are ordered. -/
theorem univ_inv_core (b : ℤ) (hb : 426 ≤ b) (n1 n2 n3 : ℤ)
    (h1 : -100 ≤ n1) (h2 : -50 ≤ n2) (h2' : n2 < 50) (h3 : -30 ≤ n3)
    (h3' : n3 < 30) :
    0 ≤ ⌊(b : ℚ) * 0.28⌋ + n3 ∧
    ⌊(b : ℚ) * 0.28⌋ + n3 ≤ ⌊(b : ℚ) * 0.65⌋ + n2 ∧
    ⌊(b : ℚ) * 0.65⌋ + n2 ≤ b + n1 := by
  have hbq : (426 : ℚ) ≤ (b : ℤ) := by exact_mod_cast hb
  have hA1 : ((⌊(b : ℚ) * 0.65⌋ : ℤ) : ℚ) ≤ (b : ℚ) * 0.65 := Int.floor_le _
  have hA2 : (b : ℚ) * 0.65 - 1 < ((⌊(b : ℚ) * 0.65⌋ : ℤ) : ℚ) :=
    Int.sub_one_lt_floor _
  have hE1 : ((⌊(b : ℚ) * 0.28⌋ : ℤ) : ℚ) ≤ (b : ℚ) * 0.28 := Int.floor_le _
  have hE2 : (b : ℚ) * 0.28 - 1 < ((⌊(b : ℚ) * 0.28⌋ : ℤ) : ℚ) :=
    Int.sub_one_lt_floor _
  refine ⟨?_, ?_, ?_⟩
  · have hq : (0 : ℚ) ≤ ((⌊(b : ℚ) * 0.28⌋ + n3 : ℤ) : ℚ) := by
      push_cast
      have : (-30 : ℚ) ≤ (n3 : ℚ) := by exact_mod_cast h3
      linarith
    exact_mod_cast hq
  · have hq : ((⌊(b : ℚ) * 0.28⌋ + n3 : ℤ) : ℚ) ≤ ((⌊(b : ℚ) * 0.65⌋ + n2 : ℤ) : ℚ) := by
      push_cast
      have hc3 : (n3 : ℚ) < 30 := by exact_mod_cast h3'
      have hc2 : (-50 : ℚ) ≤ (n2 : ℚ) := by exact_mod_cast h2
      linarith
    exact_mod_cast hq
  · have hq : ((⌊(b : ℚ) * 0.65⌋ + n2 : ℤ) : ℚ) ≤ ((b + n1 : ℤ) : ℚ) := by
      push_cast
      have h2'' : n2 ≤ 49 := by omega
      have hc2 : (n2 : ℚ) ≤ 49 := by exact_mod_cast h2''
      have hc1 : (-100 : ℚ) ≤ (n1 : ℚ) := by exact_mod_cast h1
      linarith
    exact_mod_cast hq

/-- The per-(year, term) invariant: one row built by the loop body satisfies
the enrollment ordering, for any RNG whose `randint` draws are in range. -/
theorem univTermRow_invariant {σ : Type} (R : RNG σ) (hR : RandintInRange R)
    (year : ℤ) (term : String) (s : σ) (hy : 2015 ≤ year) :
    0 ≤ (univTermRow R year term s).1.Enrolled ∧
    (univTermRow R year term s).1.Enrolled ≤ (univTermRow R year term s).1.Admitted ∧
    (univTermRow R year term s).1.Admitted ≤ (univTermRow R year term s).1.Applications := by
  have hbase : (2500 : ℤ) ≤ 2500 + (year - 2015) * 120 := by
    have h0 : (0 : ℤ) ≤ (year - 2015) * 120 :=
      mul_nonneg (by linarith) (by norm_num)
    linarith
  have hb : (426 : ℤ) ≤
      (if term = "Fall" then ⌊((2500 + (year - 2015) * 120 : ℤ) : ℚ) * 1.3⌋
       else 2500 + (year - 2015) * 120) := by
    split_ifs
    · rw [Int.le_floor]
      have : ((2500 : ℚ)) ≤ ((2500 + (year - 2015) * 120 : ℤ) : ℚ) := by
        exact_mod_cast hbase
      push_cast
      push_cast at this
      linarith
    · linarith
  simp only [univTermRow]
  obtain ⟨h1a, h1b⟩ := hR (-100) 100 s (by norm_num)
  obtain ⟨h2a, h2b⟩ := hR (-50) 50 (R.randint (-100) 100 s).2 (by norm_num)
  obtain ⟨h3a, h3b⟩ :=
    hR (-30) 30 (R.randint (-50) 50 (R.randint (-100) 100 s).2).2 (by norm_num)
  exact univ_inv_core _ hb _ _ _ h1a h2a h2b h3a h3b

/-- Claim C1: every row of the synthetic enrollment table satisfies
`0 ≤ Enrolled ≤ Admitted ≤ Applications` — the noise ranges (±100/±50/±30)
are too small to break the ordering of `base_apps`, `0.65·base_apps` and
`0.28·base_apps` for `base_apps ≥ 2500`. -/
theorem enrollment_invariant {σ : Type} (R : RNG σ) (s : σ)
    (hR : RandintInRange R) :
    ((generate_synthetic_university_data R s).1).Forall
      (fun r => 0 ≤ r.Enrolled ∧ r.Enrolled ≤ r.Admitted ∧
        r.Admitted ≤ r.Applications) := by
  have hyears : ∀ p ∈ univPairs, (2015 : ℤ) ≤ p.1 := by decide
  unfold generate_synthetic_university_data
  apply stateMap_forall
  intro p hp t
  exact univTermRow_invariant R hR p.1 p.2 t (hyears p hp)

theorem enrollment_invariant_witness :
    ((generate_synthetic_university_data RNG0 ()).1).Forall
      (fun r => 0 ≤ r.Enrolled ∧ r.Enrolled ≤ r.Admitted ∧
        r.Admitted ≤ r.Applications) :=
  enrollment_invariant RNG0 () RNG0_randint_range

/-! ## Happiness lemmas and claims C5 / C9 -/

theorem assignRanks_length : ∀ (n : ℤ) (l : List HRow),
    (assignRanks n l).length = l.length := by
  intro n l
  induction l generalizing n with
  | nil => simp [assignRanks]
  | cons a l ih => simp [assignRanks, ih]

/-- Unfolding lemma for the happiness generator. -/
theorem generate_happiness_eq {σ : Type} (R : RNG σ) (s : σ) :
    (generate_synthetic_happiness_data R s).1 =
      assignRanks 1 (List.insertionSort scoreGE
        (genHappinessRows R happinessPairs 1 (R.seed 42)).1) := by
  unfold generate_synthetic_happiness_data
  dsimp only

theorem mem_assignRanks {r : HRow} : ∀ {n : ℤ} {l : List HRow},
    r ∈ assignRanks n l →
    ∃ x ∈ l, r.Happiness_score = x.Happiness_score ∧
      r.GDP_per_capita = x.GDP_per_capita := by
  intro n l
  induction l generalizing n with
  | nil => intro h; simp [assignRanks] at h
  | cons a l ih =>
    intro h
    simp only [assignRanks, List.mem_cons] at h
    rcases h with rfl | h
    · exact ⟨a, by simp, rfl, rfl⟩
    · obtain ⟨x, hx, h1, h2⟩ := ih h
      exact ⟨x, by simp [hx], h1, h2⟩

theorem rank_ge_assignRanks : ∀ (n : ℤ) (l : List HRow),
    ∀ r ∈ assignRanks n l, n ≤ r.RANK := by
  intro n l
  induction l generalizing n with
  | nil => intro r h; simp [assignRanks] at h
  | cons a l ih =>
    intro r h
    simp only [assignRanks, List.mem_cons] at h
    rcases h with rfl | h
    · exact le_refl n
    · have := ih (n + 1) r h
      linarith

theorem assignRanks_map_rank : ∀ (n : ℤ) (l : List HRow),
    (assignRanks n l).map HRow.RANK =
      (List.range l.length).map (fun (i : ℕ) => n + (i : ℤ)) := by
  intro n l
  induction l generalizing n with
  | nil => simp [assignRanks]
  | cons a l ih =>
    simp only [assignRanks, List.map_cons, List.length_cons,
      List.range_succ_eq_map, List.map_map, ih]
    congr 1
    · norm_num
    · apply List.map_congr_left
      intro i _
      simp only [Function.comp_apply]
      push_cast
      ring

theorem assignRanks_sorted_consistency : ∀ (l : List HRow),
    l.Sorted scoreGE → ∀ (n : ℤ),
    ∀ r1 ∈ assignRanks n l, ∀ r2 ∈ assignRanks n l,
      r1.RANK < r2.RANK → r2.Happiness_score ≤ r1.Happiness_score := by
  intro l
  induction l with
  | nil => intro _ n r1 h1; simp [assignRanks] at h1
  | cons a l ih =>
    intro hs n r1 h1 r2 h2 hlt
    rw [List.sorted_cons] at hs
    obtain ⟨ha, hs'⟩ := hs
    simp only [assignRanks, List.mem_cons] at h1 h2
    rcases h1 with rfl | h1 <;> rcases h2 with rfl | h2
    · exact absurd hlt (lt_irrefl _)
    · obtain ⟨x, hx, hsc, _⟩ := mem_assignRanks h2
      have hge : x.Happiness_score ≤ a.Happiness_score := ha x hx
      rw [hsc]
      exact hge
    · exfalso
      have hge := rank_ge_assignRanks (n + 1) l r1 h1
      have : r1.RANK < n := hlt
      linarith
    · exact ih hs' (n + 1) r1 h1 r2 h2 hlt

theorem genHappinessRows_bounds {σ : Type} (R : RNG σ) :
    ∀ (pairs : List (String × String)) (rank : ℤ) (s : σ),
      ((genHappinessRows R pairs rank s).1).Forall
        (fun r => 0 ≤ r.Happiness_score ∧ r.Happiness_score ≤ 10 ∧
          0 ≤ r.GDP_per_capita) := by
  intro pairs
  induction pairs with
  | nil => intro rank s; simp [genHappinessRows]
  | cons p rest ih =>
    intro rank s
    obtain ⟨reg, c⟩ := p
    simp only [genHappinessRows, List.forall_cons]
    refine ⟨⟨?_, ?_, ?_⟩, ih _ _⟩
    · exact round3_nonneg (le_trans (by norm_num) (le_max_left 2.0 _))
    · apply round3_le_ten
      apply max_le (by norm_num)
      exact le_trans (min_le_left _ _) (by norm_num)
    · exact round3_nonneg (le_trans (by norm_num) (le_max_left 0.3 _))

/-- Claim C9: every generated happiness row has `Happiness_score` in
`[0, 10]` and nonnegative `GDP_per_capita` (the generator clamps the score to
`[2, 8]` and GDP to `[0.3, 2]` before rounding). -/
theorem happiness_range_invariant {σ : Type} (R : RNG σ) (s : σ) :
    ((generate_synthetic_happiness_data R s).1).Forall
      (fun r => 0 ≤ r.Happiness_score ∧ r.Happiness_score ≤ 10 ∧
        0 ≤ r.GDP_per_capita) := by
  rw [generate_happiness_eq, List.forall_iff_forall_mem]
  intro r hr
  obtain ⟨x, hx, hsc, hgdp⟩ := mem_assignRanks hr
  have hx' : x ∈ (genHappinessRows R happinessPairs 1 (R.seed 42)).1 :=
    (List.perm_insertionSort scoreGE _).mem_iff.mp hx
  have hall := genHappinessRows_bounds R happinessPairs 1 (R.seed 42)
  rw [List.forall_iff_forall_mem] at hall
  obtain ⟨h1, h2, h3⟩ := hall x hx'
  rw [hsc, hgdp]
  exact ⟨h1, h2, h3⟩

/-- Claim C5: the re-issued `RANK` column of the happiness table is exactly
`[1, 2, ..., N]` (in particular a permutation of `1..N`), and a row with a
smaller rank never has a smaller happiness score — the table is sorted by
score descending. -/
theorem happiness_rank_consistency {σ : Type} (R : RNG σ) (s : σ) :
    (((generate_synthetic_happiness_data R s).1).map HRow.RANK) =
      (List.range ((generate_synthetic_happiness_data R s).1).length).map
        (fun (i : ℕ) => 1 + (i : ℤ)) ∧
    ∀ r1 ∈ (generate_synthetic_happiness_data R s).1,
      ∀ r2 ∈ (generate_synthetic_happiness_data R s).1,
        r1.RANK < r2.RANK → r2.Happiness_score ≤ r1.Happiness_score := by
  constructor
  · rw [generate_happiness_eq, assignRanks_map_rank, assignRanks_length]
  · rw [generate_happiness_eq]
    intro r1 h1 r2 h2 hlt
    exact assignRanks_sorted_consistency _
      (List.sorted_insertionSort scoreGE _) 1 r1 h1 r2 h2 hlt

/-! ## Flight-generator lemmas and claim C3 -/

theorem stateMap_ne_nil {f : α → σ → β × σ} {l : List α} (hl : l ≠ []) (s : σ) :
    (stateMap f l s).1 ≠ [] := by
  cases l with
  | nil => exact absurd rfl hl
  | cons a l => simp [stateMap]

/-- Unfolding lemma: for the hub code "JFK" the generator seeds from the
hash and iterates over all destinations from JFK's coordinates. -/
theorem generate_airport_eq_jfk {σ : Type} (R : RNG σ) (sqrtA : ℚ → ℚ)
    (hashS : String → ℤ) (s : σ) :
    (generate_airport_data R sqrtA hashS "JFK" s).1 =
      (stateBind
        (destFlights R sqrtA "JFK"
          ⟨"JFK", 40.6413, -73.7781, "John F. Kennedy International"⟩)
        destinations (R.seed (hashS "JFK" % 1000))).1 := by
  have hfind : airport_coordinates.find? (fun hb => hb.code = "JFK") =
      some ⟨"JFK", 40.6413, -73.7781, "John F. Kennedy International"⟩ := by
    simp [airport_coordinates]
  unfold generate_airport_data
  rw [hfind]

theorem destFlights_ne_nil {σ : Type} (R : RNG σ) (sqrtA : ℚ → ℚ)
    (code : String) (hub : Hub) (d : Dest) (s : σ) :
    (destFlights R sqrtA code hub d s).1 ≠ [] := by
  unfold destFlights
  apply stateMap_ne_nil
  rw [Ne, List.range_eq_nil]
  omega

theorem drawFlight_fields {σ : Type} (R : RNG σ) (hR : RandintInRange R)
    (code : String) (d : Dest) (dist : ℚ) (s : σ) :
    (drawFlight R code d dist s).1.source_airport = code ∧
    ((drawFlight R code d dist s).1.domestic = true ∨
      (drawFlight R code d dist s).1.domestic = false) ∧
    5 ≤ (drawFlight R code d dist s).1.flight_hour ∧
    (drawFlight R code d dist s).1.flight_hour < 23 := by
  simp only [drawFlight]
  obtain ⟨ha, hb⟩ := hR 5 23
    (if d.domestic then
      R.choiceW (airlines.take 5) [0.3, 0.25, 0.2, 0.15, 0.1] s
     else
      R.choiceW airlines [0.15, 0.15, 0.15, 0.05, 0.05, 0.1, 0.1, 0.1, 0.08, 0.07] s).2
    (by norm_num)
  refine ⟨trivial, ?_, ha, hb⟩
  cases d.domestic <;> simp

/-- Claim C3: the flight table generated for `"JFK"` is non-empty, every
row's `source_airport` is `"JFK"`, every row's `domestic` flag is a boolean,
and every `flight_hour` lies in `[5, 23)` — for any RNG whose `randint`
draws land in `[lo, hi)` and any square-root/hash realisation. -/
theorem jfk_flight_scenario {σ : Type} (R : RNG σ) (sqrtA : ℚ → ℚ)
    (hashS : String → ℤ) (s : σ) (hR : RandintInRange R) :
    (generate_airport_data R sqrtA hashS "JFK" s).1 ≠ [] ∧
    ((generate_airport_data R sqrtA hashS "JFK" s).1).Forall
      (fun f => f.source_airport = "JFK" ∧
        (f.domestic = true ∨ f.domestic = false) ∧
        5 ≤ f.flight_hour ∧ f.flight_hour < 23) := by
  rw [generate_airport_eq_jfk]
  constructor
  · apply stateBind_ne_nil
    · intro hcontra
      simp [destinations] at hcontra
    · intro d _ t
      exact destFlights_ne_nil R sqrtA "JFK" _ d t
  · apply stateBind_forall
    intro d _ t
    unfold destFlights
    apply stateMap_forall
    intro _ _ u
    exact drawFlight_fields R hR "JFK" d _ u

theorem jfk_flight_scenario_witness :
    (generate_airport_data RNG0 (fun _ => 0) (fun _ => 0) "JFK" ()).1 ≠ [] ∧
    ((generate_airport_data RNG0 (fun _ => 0) (fun _ => 0) "JFK" ()).1).Forall
      (fun f => f.source_airport = "JFK" ∧
        (f.domestic = true ∨ f.domestic = false) ∧
        5 ≤ f.flight_hour ∧ f.flight_hour < 23) :=
  jfk_flight_scenario RNG0 (fun _ => 0) (fun _ => 0) () RNG0_randint_range

/-! ## Cleaner lemmas and claim C7 -/

theorem dropnaAll_eq_self {rows : List (List Cell)}
    (h : ∀ r ∈ rows, (r.all (fun c => c = Cell.na)) = false) :
    dropnaAll rows = rows := by
  unfold dropnaAll
  rw [List.filter_eq_self]
  intro r hr
  simp [h r hr]

theorem removePlaceholders_eq_self {cols : List (String × Dtype)}
    {rows : List (List Cell)}
    (h : ∀ i ∈ List.range cols.length,
      (cols.getD i ("", Dtype.numeric)).2 = Dtype.object →
      ∀ r ∈ rows, isPlaceholder (cellAt r i) = false) :
    removePlaceholders cols rows = rows := by
  unfold removePlaceholders
  have haux : ∀ (L : List ℕ),
      (∀ i ∈ L, (cols.getD i ("", Dtype.numeric)).2 = Dtype.object →
        ∀ r ∈ rows, isPlaceholder (cellAt r i) = false) →
      L.foldl (placeholderStep cols) rows = rows := by
    intro L
    induction L with
    | nil => intro _; rfl
    | cons i L ih =>
      intro hL
      have hstep : placeholderStep cols rows i = rows := by
        unfold placeholderStep
        split_ifs with hobj
        · rw [List.filter_eq_self]
          intro r hr
          simp [hL i (by simp) hobj r hr]
        · rfl
      rw [List.foldl_cons, hstep]
      exact ih (fun j hj => hL j (by simp [hj]))
  exact haux _ h

theorem convertStep_eq_self (parseNum : String → Option ℚ) (acc : DF)
    (col : String)
    (h : ∀ cd ∈ acc.cols, cd.1 = col → cd.2 = Dtype.numeric) :
    convertStep parseNum acc col = acc := by
  unfold convertStep
  cases hfind : acc.cols.findIdx? (fun cd => cd.1 = col) with
  | none => rfl
  | some i =>
    rw [List.findIdx?_eq_some_iff_findIdx_eq] at hfind
    obtain ⟨hlt, hfi⟩ := hfind
    subst hfi
    have hp := @List.findIdx_getElem _
      (fun (cd : String × Dtype) => decide (cd.1 = col)) acc.cols hlt
    have hmem : acc.cols[List.findIdx (fun cd => decide (cd.1 = col)) acc.cols] ∈
        acc.cols := List.getElem_mem hlt
    have hnum := h _ hmem (by simpa using hp)
    have hobj : (acc.cols[List.findIdx
        (fun cd => decide (cd.1 = col)) acc.cols]?.getD
        ("", Dtype.numeric)).2 = Dtype.numeric := by
      rw [List.getElem?_eq_getElem hlt]
      simpa using hnum
    simp [hobj]

theorem convertNumericCols_eq_self (parseNum : String → Option ℚ)
    (numeric_columns : List String) (df : DF)
    (h : ∀ col ∈ numeric_columns, ∀ cd ∈ df.cols, cd.1 = col →
      cd.2 = Dtype.numeric) :
    convertNumericCols parseNum numeric_columns df = df := by
  unfold convertNumericCols
  induction numeric_columns with
  | nil => rfl
  | cons col rest ih =>
    rw [List.foldl_cons,
      convertStep_eq_self parseNum df col (h col (by simp))]
    exact ih (fun c hc => h c (by simp [hc]))

/-- Claim C7: on already-clean input — no fully-empty rows, no placeholder
tokens in object columns, and every designated numeric column already of
numeric dtype — `clean_csv_data` returns the table unchanged. -/
theorem cleaner_idempotent_on_clean (parseNum : String → Option ℚ) (df : DF)
    (numeric_columns : List String)
    (h1 : ∀ r ∈ df.rows, (r.all (fun c => c = Cell.na)) = false)
    (h2 : ∀ i ∈ List.range df.cols.length,
      (df.cols.getD i ("", Dtype.numeric)).2 = Dtype.object →
      ∀ r ∈ df.rows, isPlaceholder (cellAt r i) = false)
    (h3 : ∀ col ∈ numeric_columns, ∀ cd ∈ df.cols, cd.1 = col →
      cd.2 = Dtype.numeric) :
    clean_csv_data parseNum df numeric_columns = df := by
  unfold clean_csv_data
  dsimp only
  rw [dropnaAll_eq_self h1, removePlaceholders_eq_self h2]
  exact convertNumericCols_eq_self parseNum numeric_columns df h3

/-- Concrete table used by the C7 witness: one object column and one numeric
column, one clean row. -/
def dfClean : DF :=
  { cols := [("Country", Dtype.object), ("Happiness_score", Dtype.numeric)]
    rows := [[Cell.str "Finland", Cell.num (7394/1000)]] }

theorem cleaner_idempotent_on_clean_witness :
    clean_csv_data (fun _ => none) dfClean ["Happiness_score"] = dfClean :=
  cleaner_idempotent_on_clean (fun _ => none) dfClean ["Happiness_score"]
    (by decide) (by decide) (by decide)

/-! ## Integrity-checker lemmas and claims C8 / C10 -/

theorem countRows_eq_zero {df : DF} {p : List Cell → Bool}
    (h : ∀ r ∈ df.rows, p r = false) : countRows df p = 0 := by
  unfold countRows
  rw [List.length_eq_zero, List.filter_eq_nil_iff]
  intro r hr
  simp [h r hr]

theorem yearIssues_eq_nil (cy : ℤ) (df : DF)
    (h : ∀ r ∈ df.rows,
      (cellLtQ (getCell df r "Year") 2000 ||
        cellGtQ (getCell df r "Year") ((cy : ℚ) + 1)) = false) :
    yearIssues cy df = [] := by
  unfold yearIssues
  split_ifs with hY
  · dsimp only
    rw [countRows_eq_zero h]
    simp
  · rfl

theorem negIssuesFor_eq_nil (df : DF) (col : String)
    (h : ∀ r ∈ df.rows, cellLtQ (getCell df r col) 0 = false) :
    negIssuesFor df col = [] := by
  unfold negIssuesFor
  split_ifs with hc
  · dsimp only
    rw [countRows_eq_zero h]
    simp
  · rfl

theorem pctIssuesFor_eq_nil (df : DF) (col : String)
    (h : ∀ r ∈ df.rows,
      (cellLtQ (getCell df r col) 0 || cellGtQ (getCell df r col) 100) = false) :
    pctIssuesFor df col = [] := by
  unfold pctIssuesFor
  split_ifs with hc
  · dsimp only
    rw [countRows_eq_zero h]
    simp
  · rfl

theorem logicIssues_eq_nil (df : DF)
    (h : ∀ r ∈ df.rows,
      (cellGtCell (getCell df r "Enrolled") (getCell df r "Admitted") ||
        cellGtCell (getCell df r "Admitted") (getCell df r "Applications")) =
        false) :
    logicIssues df = [] := by
  unfold logicIssues
  split_ifs with hc
  · dsimp only
    rw [countRows_eq_zero h]
    simp
  · rfl

/-- Claim C8: on a table containing all six inspected columns whose values
are numeric and in range, the university checker returns exactly
`["Found 1 rows with illogical enrollment progression"]` when exactly one
row has `Enrolled > Admitted`, and `[]` when no row does; moreover the
checker is literally the concatenation of its independent per-rule blocks
(no short-circuiting). -/
theorem university_integrity_detection (cy : ℤ) (df : DF)
    (hcols : ∀ c ∈ ["Year", "Applications", "Admitted", "Enrolled",
      "Retention Rate (%)", "Student Satisfaction (%)"], hasCol df c = true)
    (hvals : ∀ r ∈ df.rows, ∃ y a ad e p1 p2 : ℚ,
      getCell df r "Year" = Cell.num y ∧ 2000 ≤ y ∧ y ≤ (cy : ℚ) + 1 ∧
      getCell df r "Applications" = Cell.num a ∧ 0 ≤ a ∧
      getCell df r "Admitted" = Cell.num ad ∧ 0 ≤ ad ∧ ad ≤ a ∧
      getCell df r "Enrolled" = Cell.num e ∧ 0 ≤ e ∧
      getCell df r "Retention Rate (%)" = Cell.num p1 ∧ 0 ≤ p1 ∧ p1 ≤ 100 ∧
      getCell df r "Student Satisfaction (%)" = Cell.num p2 ∧
        0 ≤ p2 ∧ p2 ≤ 100) :
    validate_university_data cy df =
      yearIssues cy df ++ enrollment_cols.bind (fun c => negIssuesFor df c) ++
        logicIssues df ++ percentage_cols.bind (fun c => pctIssuesFor df c) ∧
    ((df.rows.filter (fun r =>
        cellGtCell (getCell df r "Enrolled")
          (getCell df r "Admitted"))).length = 1 →
      validate_university_data cy df =
        ["Found 1 rows with illogical enrollment progression"]) ∧
    ((∀ r ∈ df.rows, cellGtCell (getCell df r "Enrolled")
        (getCell df r "Admitted") = false) →
      validate_university_data cy df = []) := by
  have hyear : yearIssues cy df = [] := by
    apply yearIssues_eq_nil
    intro r hr
    obtain ⟨y, a, ad, e, p1, p2, hgy, hy1, hy2, _, _, _, _, _, _, _, _, _,
      _, _, _, _⟩ := hvals r hr
    rw [hgy]
    simp only [cellLtQ, cellGtQ, Bool.or_eq_false_iff,
      decide_eq_false_iff_not, not_lt]
    exact ⟨hy1, hy2⟩
  have hbneg : enrollment_cols.bind (fun c => negIssuesFor df c) = [] := by
    have ha : negIssuesFor df "Applications" = [] := by
      apply negIssuesFor_eq_nil
      intro r hr
      obtain ⟨y, a, ad, e, p1, p2, _, _, _, hga, ha1, _, _, _, _, _, _, _,
        _, _, _, _⟩ := hvals r hr
      rw [hga]
      simp only [cellLtQ, decide_eq_false_iff_not, not_lt]
      exact ha1
    have hb : negIssuesFor df "Admitted" = [] := by
      apply negIssuesFor_eq_nil
      intro r hr
      obtain ⟨y, a, ad, e, p1, p2, _, _, _, _, _, hgad, had1, _, _, _, _, _,
        _, _, _, _⟩ := hvals r hr
      rw [hgad]
      simp only [cellLtQ, decide_eq_false_iff_not, not_lt]
      exact had1
    have hc : negIssuesFor df "Enrolled" = [] := by
      apply negIssuesFor_eq_nil
      intro r hr
      obtain ⟨y, a, ad, e, p1, p2, _, _, _, _, _, _, _, _, hge, he1, _, _,
        _, _, _, _⟩ := hvals r hr
      rw [hge]
      simp only [cellLtQ, decide_eq_false_iff_not, not_lt]
      exact he1
    simp [enrollment_cols, ha, hb, hc]
  have hbpct : percentage_cols.bind (fun c => pctIssuesFor df c) = [] := by
    have ha : pctIssuesFor df "Retention Rate (%)" = [] := by
      apply pctIssuesFor_eq_nil
      intro r hr
      obtain ⟨y, a, ad, e, p1, p2, _, _, _, _, _, _, _, _, _, _, hgp1, hq11,
        hq12, _, _, _⟩ := hvals r hr
      rw [hgp1]
      simp only [cellLtQ, cellGtQ, Bool.or_eq_false_iff,
        decide_eq_false_iff_not, not_lt]
      exact ⟨hq11, hq12⟩
    have hb : pctIssuesFor df "Student Satisfaction (%)" = [] := by
      apply pctIssuesFor_eq_nil
      intro r hr
      obtain ⟨y, a, ad, e, p1, p2, _, _, _, _, _, _, _, _, _, _, _, _, _,
        hgp2, hq21, hq22⟩ := hvals r hr
      rw [hgp2]
      simp only [cellLtQ, cellGtQ, Bool.or_eq_false_iff,
        decide_eq_false_iff_not, not_lt]
      exact ⟨hq21, hq22⟩
    simp [percentage_cols, ha, hb]
  have hall3 : enrollment_cols.all (fun c => hasCol df c) = true := by
    rw [List.all_eq_true]
    intro c hc
    apply hcols c
    simp only [enrollment_cols, List.mem_cons, List.not_mem_nil,
      or_false] at hc
    rcases hc with rfl | rfl | rfl <;> simp
  have hq2 : ∀ r ∈ df.rows, cellGtCell (getCell df r "Admitted")
      (getCell df r "Applications") = false := by
    intro r hr
    obtain ⟨y, a, ad, e, p1, p2, _, _, _, hga, _, hgad, _, had2, _, _, _, _,
      _, _, _, _⟩ := hvals r hr
    rw [hga, hgad]
    simp only [cellGtCell, decide_eq_false_iff_not, gt_iff_lt, not_lt]
    exact had2
  refine ⟨rfl, ?_, ?_⟩
  · intro hone
    have hlog : logicIssues df =
        ["Found 1 rows with illogical enrollment progression"] := by
      unfold logicIssues
      simp only [hall3, if_true]
      have hcount : countRows df (fun r =>
          cellGtCell (getCell df r "Enrolled") (getCell df r "Admitted") ||
          cellGtCell (getCell df r "Admitted")
            (getCell df r "Applications")) = 1 := by
        unfold countRows
        rw [show df.rows.filter (fun r =>
            cellGtCell (getCell df r "Enrolled") (getCell df r "Admitted") ||
            cellGtCell (getCell df r "Admitted")
              (getCell df r "Applications")) =
          df.rows.filter (fun r =>
            cellGtCell (getCell df r "Enrolled") (getCell df r "Admitted"))
          from List.filter_congr
            (fun r hr => by rw [hq2 r hr, Bool.or_false])]
        exact hone
      rw [hcount]
      simp
      rfl
    unfold validate_university_data
    rw [hyear, hbneg, hlog, hbpct]
    simp
  · intro hnone
    have hlog0 : logicIssues df = [] := by
      apply logicIssues_eq_nil
      intro r hr
      rw [hnone r hr, hq2 r hr]
      rfl
    unfold validate_university_data
    rw [hyear, hbneg, hlog0, hbpct]
    simp

/-- Witness table for C8, first scenario: all values in range except row 1,
where `Enrolled (700) > Admitted (600)`. -/
def dfU1 : DF :=
  { cols := [("Year", Dtype.numeric), ("Applications", Dtype.numeric),
             ("Admitted", Dtype.numeric), ("Enrolled", Dtype.numeric),
             ("Retention Rate (%)", Dtype.numeric),
             ("Student Satisfaction (%)", Dtype.numeric)]
    rows := [[Cell.num 2020, Cell.num 1000, Cell.num 600, Cell.num 700,
              Cell.num 80, Cell.num 75],
             [Cell.num 2021, Cell.num 1100, Cell.num 650, Cell.num 300,
              Cell.num 85, Cell.num 90]] }

/-- Witness table for C8, second scenario: fully consistent. -/
def dfU2 : DF :=
  { cols := dfU1.cols
    rows := [[Cell.num 2020, Cell.num 1000, Cell.num 600, Cell.num 500,
              Cell.num 80, Cell.num 75],
             [Cell.num 2021, Cell.num 1100, Cell.num 650, Cell.num 300,
              Cell.num 85, Cell.num 90]] }

theorem university_integrity_detection_witness :
    validate_university_data 2025 dfU1 =
      ["Found 1 rows with illogical enrollment progression"] ∧
    validate_university_data 2025 dfU2 = [] := by
  constructor
  · apply (university_integrity_detection 2025 dfU1 (by decide) ?_).2.1
      (by decide)
    intro r hr
    simp only [dfU1, List.mem_cons, List.not_mem_nil, or_false] at hr
    rcases hr with rfl | rfl
    · exact ⟨2020, 1000, 600, 700, 80, 75, by decide, by norm_num, by norm_num, by decide, by norm_num, by decide, by norm_num, by norm_num, by decide, by norm_num, by decide, by norm_num, by norm_num, by decide, by norm_num, by norm_num⟩
    · exact ⟨2021, 1100, 650, 300, 85, 90, by decide, by norm_num, by norm_num, by decide, by norm_num, by decide, by norm_num, by norm_num, by decide, by norm_num, by decide, by norm_num, by norm_num, by decide, by norm_num, by norm_num⟩
  · apply (university_integrity_detection 2025 dfU2 (by decide) ?_).2.2
      (by decide)
    intro r hr
    simp only [dfU2, List.mem_cons, List.not_mem_nil, or_false] at hr
    rcases hr with rfl | rfl
    · exact ⟨2020, 1000, 600, 500, 80, 75, by decide, by norm_num, by norm_num, by decide, by norm_num, by decide, by norm_num, by norm_num, by decide, by norm_num, by decide, by norm_num, by norm_num, by decide, by norm_num, by norm_num⟩
    · exact ⟨2021, 1100, 650, 300, 85, 90, by decide, by norm_num, by norm_num, by decide, by norm_num, by decide, by norm_num, by norm_num, by decide, by norm_num, by decide, by norm_num, by norm_num, by decide, by norm_num, by norm_num⟩

/-- Claim C10: a checker whose inspected columns are all absent reports full
integrity (the empty issue list), and the enrollment-consistency block in
particular runs only when all three of its columns are present. -/
theorem checkers_skip_absent_columns (cy : ℤ) (df1 df2 df3 : DF) :
    (hasCol df1 "Happiness_score" = false →
      hasCol df1 "GDP_per_capita" = false →
      hasCol df1 "Country" = false → validate_happiness_data df1 = []) ∧
    (hasCol df2 "Year" = false → hasCol df2 "Applications" = false →
      hasCol df2 "Admitted" = false → hasCol df2 "Enrolled" = false →
      hasCol df2 "Retention Rate (%)" = false →
      hasCol df2 "Student Satisfaction (%)" = false →
      validate_university_data cy df2 = []) ∧
    (enrollment_cols.all (fun c => hasCol df3 c) = false →
      logicIssues df3 = []) := by
  refine ⟨?_, ?_, ?_⟩
  · intro h1 h2 h3
    simp [validate_happiness_data, happinessScoreIssues, gdpIssues,
      countryIssues, h1, h2, h3]
  · intro h1 h2 h3 h4 h5 h6
    simp [validate_university_data, yearIssues, negIssuesFor, logicIssues,
      pctIssuesFor, enrollment_cols, percentage_cols, h1, h2, h3, h4, h5, h6]
  · intro h
    simp [logicIssues, h]

/-- Witness table for C10 parts 1 and 2: a single unrelated column. -/
def dfH0 : DF :=
  { cols := [("Foo", Dtype.numeric)], rows := [[Cell.num 1]] }

/-- Witness table for C10 part 3: `Enrolled > Admitted` in its only row, but
`Applications` is absent, so the consistency block must not run. -/
def dfU3 : DF :=
  { cols := [("Admitted", Dtype.numeric), ("Enrolled", Dtype.numeric)]
    rows := [[Cell.num 5, Cell.num 9]] }

theorem checkers_skip_absent_columns_witness :
    validate_happiness_data dfH0 = [] ∧
    validate_university_data 2025 dfH0 = [] ∧
    logicIssues dfU3 = [] := by
  obtain ⟨h1, h2, h3⟩ := checkers_skip_absent_columns 2025 dfH0 dfH0 dfU3
  exact ⟨h1 (by decide) (by decide) (by decide),
    h2 (by decide) (by decide) (by decide) (by decide) (by decide) (by decide),
    h3 (by decide)⟩
